import Mathlib

/-!
Verification development for the Unciv Force Rating Calculator.

The Python sources are embedded shallowly:
  * `src/uniques_parser.py` — `parse_unit_modifiers` and its regex scans are
    modelled as executable functions over `List Char` / `String`.  The percent
    values captured by the regexes are integer literal strings, and Python
    accumulates them as integer-valued IEEE doubles, for which addition is
    exact; we therefore model all percent buckets as `Int`.
  * `src/main.py` — `compute_base_force` works with real-valued powers
    (`x ** 1.45` etc.), modelled over `ℝ` with `Real.rpow`.
  * `src/math_stuff.py` — `percent_to_decimal`.
  * `src/force_comparison.py` — `find_force_bounds` and `bisect_right`,
    modelled over `ℚ` (every tabulated force value and every query in the
    claims is an exactly representable rational).

Python `\s` / `str.strip()` whitespace, `\d` digits and `\w` word characters
are modelled for the ASCII corpus actually processed by the tool.
-/

/-- Whitespace class of Python's regex `\s` (ASCII part). -/
def pySpace (c : Char) : Bool :=
  c == ' ' || c == '\t' || c == '\n' || c == '\r' || c == '\x0b' || c == '\x0c'

/-- Digit class of Python's regex `\d` (ASCII part). -/
def pyDigit (c : Char) : Bool := '0' ≤ c && c ≤ '9'

/-- Word-character class of Python's regex `\w` (ASCII part), used by the
whole-word matching the spec prescribes for nuke detection. -/
def pyWordChar (c : Char) : Bool := c.isAlphanum || c == '_'

/-- Does `cs` start with the literal character sequence `p`?
(Models anchored matching of a literal regex fragment.) -/
def startsWithChars : List Char → List Char → Bool
  | _, [] => true
  | [], _ :: _ => false
  | c :: cs, p :: ps => c == p && startsWithChars cs ps

/-- Python's substring test `pat in text` on character lists. -/
def containsChars : List Char → List Char → Bool
  | [], p => p.isEmpty
  | c :: cs, p => startsWithChars (c :: cs) p || containsChars cs p

/-- Python's substring test `pat in text` on strings. -/
def containsStr (text pat : String) : Bool :=
  containsChars text.toList pat.toList

/-- Python's `str.lower()` (ASCII part). -/
def lowerStr (s : String) : String := String.mk (s.toList.map Char.toLower)

/-- Python's `sep.join(parts)`. -/
def pyJoin (sep : String) : List String → String
  | [] => ""
  | [s] => s
  | s :: rest => s ++ sep ++ pyJoin sep rest

/-- Python's `str.strip()` on a character list (ASCII whitespace). -/
def stripChars (cs : List Char) : List Char :=
  ((cs.dropWhile pySpace).reverse.dropWhile pySpace).reverse

/-- Match a literal regex fragment at the head, returning the rest. -/
def dropLit (p cs : List Char) : Option (List Char) :=
  match p, cs with
  | [], rest => some rest
  | _ :: _, [] => none
  | p :: ps, c :: cs => if c == p then dropLit ps cs else none

/-- Greedy `\d+`: the maximal nonempty digit run at the head, with the rest.
(No backtracking is needed anywhere these regexes use `\d+`, because the
character that must follow is never a digit.) -/
def takeDigits (cs : List Char) : Option (List Char × List Char) :=
  let ds := cs.takeWhile pyDigit
  if ds.isEmpty then none else some (ds, cs.dropWhile pyDigit)

/-- Greedy `\s+`: requires at least one whitespace character, drops the run. -/
def takeSpaces1 (cs : List Char) : Option (List Char) :=
  match cs with
  | c :: rest => if pySpace c then some (rest.dropWhile pySpace) else none
  | [] => none

/-- Greedy `c?`: consume `c` if present. -/
def optChar (c : Char) (cs : List Char) : List Char :=
  match cs with
  | c' :: rest => if c' == c then rest else cs
  | [] => cs

/-- Numeric value of a digit run (`int(m.group(1))` / `float(m.group(1))`). -/
def digitsToNat (ds : List Char) : Nat :=
  ds.foldl (fun n c => n * 10 + (c.toNat - 48)) 0

/-- Anchored match of the percent-token regexes of `parse_unit_modifiers`
(src/uniques_parser.py lines 35 and 41):

  with `extraPercent = true`  : `\[([+-]?\d+)\]\%?\s*%?\s*strength\s*<([^>]+)>`
  with `extraPercent = false` : `\[([+-]?\d+)\]\%?\s*strength\s*<([^>]+)>`

On success returns the signed percent value, the stripped tag (group 2,
`[^>]+`, then `.strip()`), and the remainder after the match.  Greedy,
commitment-safe: each optional/starred piece is over characters disjoint
from what must follow it. -/
def matchPercentAt (extraPercent : Bool) (cs : List Char) : Option (Int × String × List Char) :=
  match cs with
  | '[' :: rest =>
    let signAndRest : Int × List Char :=
      match rest with
      | '+' :: r => (1, r)
      | '-' :: r => (-1, r)
      | r => (1, r)
    match takeDigits signAndRest.2 with
    | none => none
    | some (ds, rest2) =>
      match rest2 with
      | ']' :: rest3 =>
        let rest4 := (optChar '%' rest3).dropWhile pySpace
        let rest5 := if extraPercent then (optChar '%' rest4).dropWhile pySpace else rest4
        match dropLit "strength".toList rest5 with
        | none => none
        | some rest6 =>
          match rest6.dropWhile pySpace with
          | '<' :: rest7 =>
            let tag := rest7.takeWhile (fun c => c != '>')
            if tag.isEmpty then none
            else match rest7.dropWhile (fun c => c != '>') with
              | '>' :: rest8 =>
                some (signAndRest.1 * (digitsToNat ds : Int), String.mk (stripChars tag), rest8)
              | _ => none
          | _ => none
      | _ => none
  | _ => none

/-- `re.finditer` for the percent-token regex: scan left to right, take the
leftmost match, continue after its end.  `fuel` is an upper bound on the
number of scan steps; callers pass `cs.length + 1`, which always suffices
because every step either consumes one unmatched character or a nonempty
match. -/
def scanPercent (extraPercent : Bool) : Nat → List Char → List (Int × String)
  | 0, _ => []
  | _ + 1, [] => []
  | fuel + 1, c :: cs =>
    match matchPercentAt extraPercent (c :: cs) with
    | some (v, tag, rest) => (v, tag) :: scanPercent extraPercent fuel rest
    | none => scanPercent extraPercent fuel cs

/-- Anchored match of `(\d+)\s+extra\s+attacks?`
(src/uniques_parser.py line 79), returning group 1. -/
def matchExtraAttacksAt (cs : List Char) : Option Nat :=
  match takeDigits cs with
  | none => none
  | some (ds, r1) =>
    match takeSpaces1 r1 with
    | none => none
    | some r2 =>
      match dropLit "extra".toList r2 with
      | none => none
      | some r3 =>
        match takeSpaces1 r3 with
        | none => none
        | some r4 =>
          match dropLit "attack".toList r4 with
          | none => none
          | some _ => some (digitsToNat ds)

/-- Anchored match of `(\d+)\s+attacks?\s+(per\s+turn|per turn|in one turn)`
(src/uniques_parser.py line 84), returning group 1.  The second alternative
`per turn` is subsumed by the first `per\s+turn`, as in the source. -/
def matchAttacksPerTurnAt (cs : List Char) : Option Nat :=
  match takeDigits cs with
  | none => none
  | some (ds, r1) =>
    match takeSpaces1 r1 with
    | none => none
    | some r2 =>
      match dropLit "attack".toList r2 with
      | none => none
      | some r3 =>
        let r4 := optChar 's' r3
        match takeSpaces1 r4 with
        | none => none
        | some r5 =>
          match dropLit "per".toList r5 with
          | some r6 =>
            match takeSpaces1 r6 with
            | none => none
            | some r7 =>
              match dropLit "turn".toList r7 with
              | none => none
              | some _ => some (digitsToNat ds)
          | none =>
            match dropLit "in one turn".toList r5 with
            | none => none
            | some _ => some (digitsToNat ds)

/-- `re.search`: leftmost match of an anchored matcher, scanning positions
left to right.  Callers pass `cs.length + 1` as fuel. -/
def searchScan {α : Type} (m : List Char → Option α) : Nat → List Char → Option α
  | 0, _ => none
  | _ + 1, [] => none
  | fuel + 1, c :: cs =>
    match m (c :: cs) with
    | some v => some v
    | none => searchScan m fuel cs

/-- Input shape of a unit record as read from Units.json (spec §3 UnitStats;
`unit.get(...)` defaults of the source are the field defaults here). -/
structure UnitData where
  strength : Nat
  rangedStrength : Nat
  movement : Nat
  unitType : String
  uniques : List String
  promotions : List String
deriving DecidableEq, Repr

/-- Output dict of `parse_unit_modifiers` (src/uniques_parser.py lines
98–108), one field per key of the returned dict, in source order. -/
structure ModifierRecord where
  city_attack_bonus : Int
  attack_vs_bonus : Int
  attack_bonus : Int
  defend_bonus : Int
  paradrop_able : Bool
  must_set_up : Bool
  self_destructs : Bool
  extra_attacks : Nat
  is_ranged_naval : Bool
deriving DecidableEq, Repr

/-- The literal key list of the dict returned by `parse_unit_modifiers`
(src/uniques_parser.py lines 98–108).  Note there is no `is_nuke` key. -/
def modifierRecordKeys : List String :=
  ["city_attack_bonus", "attack_vs_bonus", "attack_bonus", "defend_bonus",
   "paradrop_able", "must_set_up", "self_destructs", "extra_attacks",
   "is_ranged_naval"]

/-- Lowercased space-joined corpus of uniques then promotions
(src/uniques_parser.py line 31). -/
def corpusOf (u : UnitData) : String :=
  lowerStr (pyJoin " " (u.uniques ++ u.promotions))

/-- The `percent_entries` list (src/uniques_parser.py lines 34–44): matches
of the first regex (line 35, with the extra `%?\s*`) followed by matches of
the second regex (line 41).  No deduplication is performed. -/
def percentEntriesAll (text : String) : List (Int × String) :=
  let tc := text.toList
  scanPercent true (tc.length + 1) tc ++ scanPercent false (tc.length + 1) tc

/-- One step of the classification loop (src/uniques_parser.py lines 51–65)
on the accumulator (city, vs, attack, defend).  Python's
`elif A or B and C` parses as `A or (B and C)`; both arms of that branch add
to `attack_bonus`. -/
def classifyStep (text : String) (acc : Int × Int × Int × Int) (e : Int × String) :
    Int × Int × Int × Int :=
  if containsStr e.2 "city" then
    (acc.1 + e.1, acc.2.1, acc.2.2.1, acc.2.2.2)
  else if containsStr e.2 "when attacking"
      || (containsStr text "when attacking" && !containsStr e.2 "when defending") then
    (acc.1, acc.2.1, acc.2.2.1 + e.1, acc.2.2.2)
  else if containsStr e.2 "when defending" || containsStr text "when defending" then
    (acc.1, acc.2.1, acc.2.2.1, acc.2.2.2 + e.1)
  else
    (acc.1, acc.2.1 + e.1, acc.2.2.1, acc.2.2.2)

/-- The classification loop over all percent entries, starting from zeros. -/
def accumulateBuckets (text : String) (entries : List (Int × String)) :
    Int × Int × Int × Int :=
  entries.foldl (classifyStep text) (0, 0, 0, 0)

/-- Extra-attacks extraction (src/uniques_parser.py lines 77–92): first
`(\d+)\s+extra\s+attacks?` taken verbatim; else `(\d+)\s+attacks?\s+(per
turn|in one turn)` as count − 1 when the count exceeds 1; finally, whenever
the value so far is 0 and one of the bare phrases occurs, the result is 1. -/
def extraAttacksOf (text : String) : Nat :=
  let tc := text.toList
  let fromNumeric :=
    match searchScan matchExtraAttacksAt (tc.length + 1) tc with
    | some n => n
    | none =>
      match searchScan matchAttacksPerTurnAt (tc.length + 1) tc with
      | some n => if n > 1 then n - 1 else 0
      | none => 0
  if fromNumeric == 0
      && (containsStr text "extra attack" || containsStr text "attack twice"
          || containsStr text "can attack twice" || containsStr text "attacks twice") then
    1
  else fromNumeric

/-- Shallow embedding of `parse_unit_modifiers` (src/uniques_parser.py
lines 16–108). -/
def parse_unit_modifiers (u : UnitData) : ModifierRecord :=
  let text := corpusOf u
  let buckets := accumulateBuckets text (percentEntriesAll text)
  { city_attack_bonus := buckets.1
    attack_vs_bonus := buckets.2.1
    attack_bonus := buckets.2.2.1
    defend_bonus := buckets.2.2.2
    paradrop_able := containsStr text "paradrop" || containsStr text "paratroop"
      || containsStr text "can paradrop" || containsStr text "paratrooper"
    must_set_up := containsStr text "must set up to ranged attack"
      || containsStr text "must set up" || containsStr text "must set up to"
    self_destructs := containsStr text "self-destruct" || containsStr text "self destruct"
      || containsStr text "suicide" || containsStr text "explodes when attacking"
    extra_attacks := extraAttacksOf text
    is_ranged_naval := containsStr (lowerStr u.unitType) "water"
      && decide (0 < u.rangedStrength) }

/-- Tests whether `pat` occurs in `text` as a whole word: an occurrence whose
preceding character (if any) and following character (if any) are not word
characters, as Python's `\b...\b` would check.  `prevW` records whether the
character just before the current position is a word character. -/
def wholeWordGo (pat : List Char) : Bool → List Char → Bool
  | _, [] => false
  | prevW, c :: cs =>
    (!prevW && startsWithChars (c :: cs) pat
      && (match (c :: cs).drop pat.length with
          | [] => true
          | d :: _ => !pyWordChar d))
    || wholeWordGo pat (pyWordChar c) cs

/-- Whole-word occurrence of `pat` in `text`. -/
def occursAsWholeWord (text pat : String) : Bool :=
  wholeWordGo pat.toList false text.toList

/-- Modelled from the spec: `parse_unit_modifiers` in src/uniques_parser.py
emits no isNuke field at all, so the spec's nuke detection — "any of
{nuclear missile, atomic bomb, nuclear weapon, nuke, nuclear, atomic}
matched as whole-word patterns over the lowercased combined corpus" — is
modelled here from the spec's words (spec §4.1 flag detection). -/
def spec_isNuke (text : String) : Bool :=
  ["nuclear missile", "atomic bomb", "nuclear weapon", "nuke", "nuclear", "atomic"].any
    (fun w => occursAsWholeWord text w)

/-- Shallow embedding of `percent_to_decimal` (src/math_stuff.py). -/
noncomputable def percent_to_decimal (percent : ℝ) : ℝ := percent / 100

/-- One conditional accumulator step of `compute_base_force`: the source's
`if cond: total_mult *= factor` (src/main.py lines 31–59). -/
noncomputable def applyFactor (c : Prop) [Decidable c] (factor acc : ℝ) : ℝ :=
  if c then acc * factor else acc

/-- Start-value selection of `compute_base_force` (src/main.py lines 20–23):
`ranged_strength is not None and ranged_strength > 0` chooses the ranged
path, else the melee path. -/
noncomputable def startValue (strength : ℝ) (ranged_strength : Option ℝ) : ℝ :=
  match ranged_strength with
  | some r => if 0 < r then r ^ (1.45 : ℝ) else strength ^ (1.5 : ℝ)
  | none => strength ^ (1.5 : ℝ)

/-- Shallow embedding of `compute_base_force` (src/main.py lines 6–67) over
`ℝ`, with `x ** y` as `Real.rpow`.  `ranged_strength` is `Option ℝ` to model
the Python default `None`.  Arguments appear in the source's keyword order;
the sequence of `applyFactor` steps follows the source's sequence of
`total_mult *=` statements (lines 31–59) exactly. -/
noncomputable def compute_base_force
    (strength : ℝ) (ranged_strength : Option ℝ) (movement : ℝ)
    (is_nuke is_ranged_naval self_destructs : Bool)
    (city_attack_bonus attack_vs_bonus attack_bonus defend_bonus : ℝ)
    (paradrop_able must_set_up : Bool) (terrain_bonus : ℝ)
    (extra_attacks : ℝ) : ℝ :=
  let base := startValue strength ranged_strength * movement ^ (0.3 : ℝ)
  let total_mult : ℝ := 1
  let total_mult := applyFactor is_ranged_naval 0.5 total_mult
  let total_mult := applyFactor self_destructs 0.5 total_mult
  let total_mult := applyFactor (city_attack_bonus ≠ 0)
    (1 + 0.5 * percent_to_decimal city_attack_bonus) total_mult
  let total_mult := applyFactor (attack_vs_bonus ≠ 0)
    (1 + 0.25 * percent_to_decimal attack_vs_bonus) total_mult
  let total_mult := applyFactor (attack_bonus ≠ 0)
    (1 + 0.5 * percent_to_decimal attack_bonus) total_mult
  let total_mult := applyFactor (defend_bonus ≠ 0)
    (1 + 0.5 * percent_to_decimal defend_bonus) total_mult
  let total_mult := applyFactor paradrop_able 1.25 total_mult
  let total_mult := applyFactor must_set_up 0.8 total_mult
  let total_mult := applyFactor (terrain_bonus ≠ 0)
    (1 + 0.5 * percent_to_decimal terrain_bonus) total_mult
  let total_mult := applyFactor (extra_attacks ≠ 0)
    (1 + 0.2 * extra_attacks) total_mult
  let final := base * total_mult
  if is_nuke then final + 4000 else final

theorem applyFactor_eq (c : Prop) [inst : Decidable c] (factor acc : ℝ) :
    applyFactor c factor acc = acc * (if c then factor else 1) := by
  rw [applyFactor]
  split <;> simp

/-- Closed form of `compute_base_force`: the start value times the movement
power times one independent factor per modifier, plus the additive nuke
bonus. -/
theorem compute_base_force_closed_form
    (s : ℝ) (rs : Option ℝ) (m : ℝ) (nk rn sd : Bool) (cb vb ab db : ℝ)
    (pa ms : Bool) (t ea : ℝ) :
    compute_base_force s rs m nk rn sd cb vb ab db pa ms t ea
      = startValue s rs * m ^ (0.3 : ℝ)
        * ((if rn then (0.5 : ℝ) else 1) * (if sd then (0.5 : ℝ) else 1)
          * (if cb ≠ 0 then 1 + 0.5 * (cb / 100) else 1)
          * (if vb ≠ 0 then 1 + 0.25 * (vb / 100) else 1)
          * (if ab ≠ 0 then 1 + 0.5 * (ab / 100) else 1)
          * (if db ≠ 0 then 1 + 0.5 * (db / 100) else 1)
          * (if pa then (1.25 : ℝ) else 1) * (if ms then (0.8 : ℝ) else 1)
          * (if t ≠ 0 then 1 + 0.5 * (t / 100) else 1)
          * (if ea ≠ 0 then 1 + 0.2 * ea else 1))
        + (if nk then (4000 : ℝ) else 0) := by
  cases nk <;>
    simp only [compute_base_force, applyFactor_eq, percent_to_decimal,
      Bool.false_eq_true, if_false, if_true, ite_false, ite_true] <;>
    ring

/-- The loop body of Python's `bisect.bisect_right` on the half-open interval
`[lo, hi)` of positions in `a`, with structural fuel (callers pass
`a.length + 1`, enough since the interval shrinks every iteration). -/
def bisectRightGo (a : List ℚ) (x : ℚ) : Nat → Nat → Nat → Nat
  | 0, lo, _ => lo
  | fuel + 1, lo, hi =>
    if lo < hi then
      let mid := (lo + hi) / 2
      if x < a.getD mid 0 then bisectRightGo a x fuel lo mid
      else bisectRightGo a x fuel (mid + 1) hi
    else lo

/-- Python's `bisect.bisect_right(a, x)`: the insertion point to the right of
existing entries equal to `x`; on the sorted force tables this is the count
of elements `≤ x` (the comment in src/force_comparison.py line 157). -/
def bisect_right (a : List ℚ) (x : ℚ) : Nat :=
  bisectRightGo a x (a.length + 1) 0 a.length

/-- Body of `find_force_bounds` (src/force_comparison.py lines 141–169),
parameterized by the (name, force) table so the claim's three-row example
table can be queried; the module-level split into `_NAMES`/`_FORCES`
(lines 137–138) is performed here. -/
def findForceBoundsOn (units : List (String × ℚ)) (force : ℚ) : String :=
  let forces := units.map (fun nf => nf.2)
  let names := units.map (fun nf => nf.1)
  if force < forces.getD 0 0 then "Lower than any G&K unit"
  else if forces.getD (forces.length - 1) 0 < force then "Higher than any G&K unit"
  else
    let j := bisect_right forces force
    let idxs : Nat × Nat :=
      if j == forces.length then
        (if forces.length ≥ 2 then forces.length - 2 else 0, forces.length - 1)
      else
        (j - 1, j)
    "Between " ++ names.getD idxs.1 "" ++ " and " ++ names.getD idxs.2 ""

/-- The static `_UNITS` table of src/force_comparison.py lines 29–134. -/
def unitsTable : List (String × ℚ) :=
  [("Scout", 13), ("Archer", 19), ("Slinger", 19), ("Dromon", 23),
   ("Warrior", 27), ("Maori Warrior", 27), ("Brute", 27), ("Bowman", 29),
   ("Jaguar", 36), ("Catapult", 39), ("Composite Bowman", 39),
   ("Galleass", 41), ("Chariot Archer", 42), ("War Elephant", 44),
   ("War Chariot", 45), ("Horse Archer", 45), ("Trireme", 46),
   ("Spearman", 49), ("Ballista", 55), ("Persian Immortal", 56),
   ("Horseman", 62), ("Hoplite", 63), ("Swordsman", 64), ("Chu-Ko-Nu", 66),
   ("Quinquereme", 69), ("African Forest Elephant", 72),
   ("Battering Ram", 80), ("Cataphract", 80), ("Crossbowman", 81),
   ("Longbowman", 81), ("Companion Cavalry", 84), ("Legion", 86),
   ("Mohawk Warrior", 86), ("Pikeman", 87), ("Landsknecht", 87),
   ("Trebuchet", 88), ("Keshik", 89), ("Frigate", 100), ("Hwach'a", 110),
   ("Longswordsman", 118), ("Camel Archer", 124), ("Samurai", 126),
   ("Berserker", 133), ("Knight", 134), ("Conquistador", 134),
   ("Mandekalu Cavalry", 134), ("Caravel", 134), ("Ship of the Line", 139),
   ("Musketman", 144), ("Cannon", 151), ("Minuteman", 154),
   ("Janissary", 162), ("Gatling Gun", 169), ("Musketeer", 182),
   ("Tercio", 182), ("Naresuan's Elephant", 194), ("Lancer", 204),
   ("Hakkapeliitta", 204), ("Sipahi", 218), ("Privateer", 222),
   ("Rifleman", 243), ("Carolean", 243), ("Sea Beggar", 244),
   ("Artillery", 245), ("Battleship", 269), ("Great War Bomber", 290),
   ("Cavalry", 300), ("Hussar", 320), ("Triplane", 325),
   ("Turtle Ship", 327), ("Cossack", 337), ("Norwegian Ski Infantry", 345),
   ("Guided Missile", 378), ("Carrier", 408), ("Submarine", 420),
   ("Bomber", 425), ("Great War Infantry", 434), ("Machine Gun", 465),
   ("Fighter", 470), ("Foreign Legion", 477), ("Ironclad", 486),
   ("Zero", 508), ("Anti-Tank Gun", 542), ("B17", 551), ("Marine", 645),
   ("Landship", 703), ("Infantry", 720), ("Nuclear Submarine", 735),
   ("Stealth Bomber", 771), ("Paratrooper", 806),
   ("Anti-Aircraft Gun", 819), ("Destroyer", 870),
   ("Missile Cruiser", 888), ("Rocket Artillery", 930), ("Tank", 948),
   ("Jet Fighter", 988), ("Helicopter Gunship", 992),
   ("Mechanized Infantry", 1186), ("Panzer", 1223), ("Mobile SAM", 1376),
   ("Modern Armor", 1620), ("Giant Death Robot", 2977),
   ("Atomic Bomb", 4714), ("Nuclear Missile", 7906)]

/-- `find_force_bounds` as shipped: the algorithm over the static table. -/
def find_force_bounds (force : ℚ) : String := findForceBoundsOn unitsTable force

/-- The three-row example table of the claim and of spec §8. -/
def demoTable : List (String × ℚ) := [("A", 10), ("B", 20), ("C", 30)]

/-- Sum of the percent values of the entries satisfying `p`. -/
def bucketSum (p : Int × String → Bool) (l : List (Int × String)) : Int :=
  ((l.filter p).map (fun e => e.1)).sum

/-- Routing predicate of the first branch of the classification loop: the
tag contains "city". -/
def routesToCity (e : Int × String) : Bool := containsStr e.2 "city"

/-- Routing predicate of the second branch: not city, and either the tag
contains "when attacking", or the full corpus does and the tag does not
contain "when defending". -/
def routesToAttack (text : String) (e : Int × String) : Bool :=
  !routesToCity e
    && (containsStr e.2 "when attacking"
        || (containsStr text "when attacking" && !containsStr e.2 "when defending"))

/-- Routing predicate of the third branch: neither of the previous, and the
tag or the corpus contains "when defending". -/
def routesToDefend (text : String) (e : Int × String) : Bool :=
  !routesToCity e
    && !(containsStr e.2 "when attacking"
        || (containsStr text "when attacking" && !containsStr e.2 "when defending"))
    && (containsStr e.2 "when defending" || containsStr text "when defending")

/-- Routing predicate of the catch-all branch. -/
def routesToVs (text : String) (e : Int × String) : Bool :=
  !routesToCity e
    && !(containsStr e.2 "when attacking"
        || (containsStr text "when attacking" && !containsStr e.2 "when defending"))
    && !(containsStr e.2 "when defending" || containsStr text "when defending")

theorem bucketSum_cons (p : Int × String → Bool) (e : Int × String)
    (l : List (Int × String)) :
    bucketSum p (e :: l) = (if p e then e.1 else 0) + bucketSum p l := by
  by_cases h : p e
  · simp [bucketSum, List.filter_cons, h]
  · simp [bucketSum, List.filter_cons, h]

theorem accumulateBuckets_go (text : String) (l : List (Int × String))
    (c v a d : Int) :
    l.foldl (classifyStep text) (c, v, a, d)
      = (c + bucketSum routesToCity l,
         v + bucketSum (routesToVs text) l,
         a + bucketSum (routesToAttack text) l,
         d + bucketSum (routesToDefend text) l) := by
  induction l generalizing c v a d with
  | nil => simp [bucketSum]
  | cons e tl ih =>
    rw [List.foldl_cons, ih]
    simp only [classifyStep, bucketSum_cons, routesToCity, routesToAttack,
      routesToDefend, routesToVs]
    rcases Bool.dichotomy (containsStr e.2 "city") with hc | hc <;>
      rcases Bool.dichotomy (containsStr e.2 "when attacking"
        || (containsStr text "when attacking" && !containsStr e.2 "when defending"))
        with ha | ha <;>
      rcases Bool.dichotomy (containsStr e.2 "when defending"
        || containsStr text "when defending") with hd | hd <;>
      simp [hc, ha, hd, Prod.ext_iff] <;> omega

theorem accumulateBuckets_eq (text : String) (l : List (Int × String)) :
    accumulateBuckets text l
      = (bucketSum routesToCity l,
         bucketSum (routesToVs text) l,
         bucketSum (routesToAttack text) l,
         bucketSum (routesToDefend text) l) := by
  rw [accumulateBuckets, accumulateBuckets_go]
  simp

/-- Claim C1 (code bug): a bracketed percent-strength token appearing exactly
once in the corpus is appended to `percent_entries` once by each of the two
regex passes — the second regex (line 41) matches a subset of what the first
(line 35) matches — and there is no deduplication, so its value enters its
bucket twice: the single unique `[+50]% strength <city>` yields
`city_attack_bonus = 100`, not the claimed single contribution of 50. -/
theorem c1_percent_token_double_counted :
    percentEntriesAll (corpusOf ⟨0, 0, 2, "", ["[+50]% strength <city>"], []⟩)
      = [(50, "city"), (50, "city")]
    ∧ (parse_unit_modifiers
        ⟨0, 0, 2, "", ["[+50]% strength <city>"], []⟩).city_attack_bonus = 100 :=
  ⟨rfl, rfl⟩

/-- Claim C2, counterexample: for a unit whose single percent token has the
tag `vs [armor]` (containing none of "city", "when attacking",
"when defending") but whose corpus elsewhere contains "when attacking", the
pair is routed to `attack_bonus`, not to `attack_vs_bonus` — classification
leaks from the corpus, refuting the claim as stated. -/
theorem c2_corpus_leak_counterexample :
    containsStr "vs [armor]" "city" = false
    ∧ containsStr "vs [armor]" "when attacking" = false
    ∧ containsStr "vs [armor]" "when defending" = false
    ∧ percentEntriesAll (corpusOf
        ⟨0, 0, 2, "", ["[+30]% strength <vs [armor]>", "bonus when attacking"], []⟩)
      = [(30, "vs [armor]"), (30, "vs [armor]")]
    ∧ (parse_unit_modifiers
        ⟨0, 0, 2, "", ["[+30]% strength <vs [armor]>", "bonus when attacking"], []⟩).attack_vs_bonus
      = 0
    ∧ (parse_unit_modifiers
        ⟨0, 0, 2, "", ["[+30]% strength <vs [armor]>", "bonus when attacking"], []⟩).attack_bonus
      = 60 :=
  ⟨rfl, rfl, rfl, rfl, rfl, rfl⟩

/-- Claim C2, amended: every extracted pair is classified into exactly one of
the four buckets, but the two middle branches also consult the full corpus:
a pair routes to cityAttackBonus iff its tag contains "city"; otherwise to
attackBonus iff its tag contains "when attacking" or the corpus contains
"when attacking" while the tag does not contain "when defending"; otherwise
to defendBonus iff its tag or the corpus contains "when defending";
otherwise to attackVsBonus.  Each bucket is the sum of the values of the
pairs its predicate selects. -/
theorem c2_bucket_routing (u : UnitData) :
    (parse_unit_modifiers u).city_attack_bonus
        = bucketSum routesToCity (percentEntriesAll (corpusOf u))
    ∧ (parse_unit_modifiers u).attack_bonus
        = bucketSum (routesToAttack (corpusOf u)) (percentEntriesAll (corpusOf u))
    ∧ (parse_unit_modifiers u).defend_bonus
        = bucketSum (routesToDefend (corpusOf u)) (percentEntriesAll (corpusOf u))
    ∧ (parse_unit_modifiers u).attack_vs_bonus
        = bucketSum (routesToVs (corpusOf u)) (percentEntriesAll (corpusOf u)) := by
  simp [parse_unit_modifiers, accumulateBuckets_eq]

/-- Claim C3 (code bug): the dict returned by `parse_unit_modifiers` has no
`is_nuke` key at all (its callers' `parsed.get('is_nuke', False)` is
therefore always `False`), even for a unit whose corpus contains
"nuclear missile" as a whole word, which the spec's nuke detection — here
modelled from the spec — classifies as a nuke. -/
theorem c3_no_isnuke_output :
    spec_isNuke (corpusOf ⟨0, 60, 12, "missile", ["nuclear missile"], []⟩) = true
    ∧ modifierRecordKeys.contains "is_nuke" = false :=
  ⟨rfl, rfl⟩

/-- Claim C4, counterexample: a unit with positive rangedStrength and
unitType "submarine" is NOT classified ranged-naval — the code tests only
for the substring "water" in the unit type, not for "submarine", "carrier",
"aircraft carrier" or "ship". -/
theorem c4_submarine_not_ranged_naval :
    (parse_unit_modifiers ⟨0, 10, 2, "submarine", [], []⟩).is_ranged_naval = false :=
  rfl

/-- Claim C4, amended: `is_ranged_naval` is true iff the unit's
rangedStrength is positive AND its lowercased unitType contains the single
naval indicator substring "water"; a unit with zero rangedStrength is never
ranged-naval. -/
theorem c4_ranged_naval_water_only (u : UnitData) :
    (parse_unit_modifiers u).is_ranged_naval = true
      ↔ (containsStr (lowerStr u.unitType) "water" = true ∧ 0 < u.rangedStrength) := by
  simp [parse_unit_modifiers]

/-- Claim C5, counterexample: on the table [(A,10),(B,20),(C,30)], a query
exactly equal to the interior tabulated value 20 does not widen to the
neighbor below: the result is not "Between A and C". -/
theorem c5_exact_match_counterexample :
    findForceBoundsOn demoTable 20 ≠ "Between A and C" := by
  decide

/-- Claim C5, amended: on the table [(A,10),(B,20),(C,30)], locate(20)
returns Between(B,C) — on an exact interior match the lower name is the
matched entry itself (the last entry with value ≤ the query) and the upper
the next entry; widening below happens only at the table maximum — while
locate(5) is Below, locate(35) is Above and locate(15) is Between(A,B). -/
theorem c5_rank_locator_brackets :
    findForceBoundsOn demoTable 20 = "Between B and C"
    ∧ findForceBoundsOn demoTable 5 = "Lower than any G&K unit"
    ∧ findForceBoundsOn demoTable 35 = "Higher than any G&K unit"
    ∧ findForceBoundsOn demoTable 15 = "Between A and B" :=
  ⟨rfl, rfl, rfl, rfl⟩

/-- Claim C6, counterexample: a corpus containing "0 extra attacks" yields
extra_attacks = 1, not 0: the numeric match produces 0, and the bare-phrase
fallback (line 91) then fires because the corpus contains "extra attack"
and the value so far is 0. -/
theorem c6_zero_extra_attacks :
    (parse_unit_modifiers ⟨0, 0, 2, "", ["0 extra attacks"], []⟩).extra_attacks = 1 :=
  rfl

/-- Claim C6, amended: the numeric patterns are tried in priority order —
an integer before "extra attack(s)" is used directly, else an integer
before "attacks per turn"/"attacks in one turn" yields integer − 1 when
above 1 and 0 at 1, else 0 — but the bare-phrase fallback ("extra attack",
"attack twice", "can attack twice", "attacks twice" → 1) applies whenever
the value produced so far is 0, including when a numeric pattern matched
with value 0; hence "3 extra attacks" → 3, "makes 3 attacks per turn" → 2,
"makes 1 attacks per turn" → 0, "can attack twice" → 1, no match → 0, and
"0 extra attacks" → 1. -/
theorem c6_extra_attack_priority :
    extraAttacksOf "3 extra attacks" = 3
    ∧ extraAttacksOf "makes 3 attacks per turn" = 2
    ∧ extraAttacksOf "makes 1 attacks per turn" = 0
    ∧ extraAttacksOf "can attack twice" = 1
    ∧ extraAttacksOf "" = 0
    ∧ extraAttacksOf "0 extra attacks" = 1 :=
  ⟨rfl, rfl, rfl, rfl, rfl, rfl⟩

/-- Claim C8, counterexample: with empty uniques and promotions, the record
is not necessarily all-default: `is_ranged_naval` is computed from unitType
and rangedStrength, not from the corpus, so a unit with unitType "water"
and positive rangedStrength gets a true flag. -/
theorem c8_empty_corpus_naval_flag :
    (parse_unit_modifiers ⟨0, 1, 2, "water", [], []⟩).is_ranged_naval = true :=
  rfl

/-- Claim C8, amended: the parser is a total function returning a fully
populated record: on empty uniques and promotions every corpus-derived
field takes its default zero/false value (percent buckets 0, corpus flags
false, extra_attacks 0), while `is_ranged_naval` is determined by unitType
and rangedStrength alone. -/
theorem c8_defaults_on_empty (s rs mv : Nat) (ut : String) :
    parse_unit_modifiers ⟨s, rs, mv, ut, [], []⟩
      = { city_attack_bonus := 0, attack_vs_bonus := 0, attack_bonus := 0,
          defend_bonus := 0, paradrop_able := false, must_set_up := false,
          self_destructs := false, extra_attacks := 0,
          is_ranged_naval := containsStr (lowerStr ut) "water" && decide (0 < rs) } :=
  rfl

/-- Claim C7: the nuke bonus is additive and applied after every
multiplicative modifier — with strength 0, rangedStrength 10, movement 2,
isNuke and selfDestructs and everything else default, the force is
(10^1.45 * 2^0.3 * 0.5) + 4000: the self-destruct halving scales the base
but not the 4000. -/
theorem c7_nuke_bonus_additive :
    compute_base_force 0 (some 10) 2 true false true 0 0 0 0 false false 0 0
      = (10 : ℝ) ^ (1.45 : ℝ) * (2 : ℝ) ^ (0.3 : ℝ) * 0.5 + 4000 := by
  rw [compute_base_force_closed_form]
  norm_num [startValue]

/-- Claim C9: the starting value is rangedStrength^1.45 whenever
rangedStrength is positive (whatever strength is), and strength^1.5 exactly
when rangedStrength is zero or absent (None); consequently a melee unit
with strength 62 and movement 2 and no modifiers rates 62^1.5 * 2^0.3. -/
theorem c9_start_value_selection :
    (∀ s r m : ℝ, 0 < r →
      compute_base_force s (some r) m false false false 0 0 0 0 false false 0 0
        = r ^ (1.45 : ℝ) * m ^ (0.3 : ℝ))
    ∧ (∀ s m : ℝ,
      compute_base_force s (some 0) m false false false 0 0 0 0 false false 0 0
        = s ^ (1.5 : ℝ) * m ^ (0.3 : ℝ)
      ∧ compute_base_force s none m false false false 0 0 0 0 false false 0 0
        = s ^ (1.5 : ℝ) * m ^ (0.3 : ℝ))
    ∧ compute_base_force 62 (some 0) 2 false false false 0 0 0 0 false false 0 0
      = (62 : ℝ) ^ (1.5 : ℝ) * (2 : ℝ) ^ (0.3 : ℝ) := by
  refine ⟨fun s r m h => ?_, fun s m => ⟨?_, ?_⟩, ?_⟩
  · rw [compute_base_force_closed_form]
    simp only [startValue]
    rw [if_pos h]
    norm_num
  · rw [compute_base_force_closed_form]
    norm_num [startValue]
  · rw [compute_base_force_closed_form]
    norm_num [startValue]
  · rw [compute_base_force_closed_form]
    norm_num [startValue]

/-- Witness for C9: the ranged path is taken at the concrete positive
rangedStrength 3. -/
theorem c9_start_value_selection_witness :
    compute_base_force 5 (some 3) 2 false false false 0 0 0 0 false false 0 0
      = (3 : ℝ) ^ (1.45 : ℝ) * (2 : ℝ) ^ (0.3 : ℝ) :=
  c9_start_value_selection.1 5 3 2 (by norm_num)

/-- Claim C10: `compute_base_force` accepts a terrain_bonus percent argument
beyond the spec's ModifierRecord: a nonzero terrain_bonus contributes the
factor (1 + 0.5 * terrain_bonus/100) to the multiplicative accumulator,
every other factor and the additive nuke bonus being unchanged, and a zero
terrain_bonus (the default) leaves the result exactly as with the spec's
modifier list. -/
theorem c10_terrain_bonus_factor
    (s : ℝ) (rs : Option ℝ) (m : ℝ) (nk rn sd : Bool) (cb vb ab db : ℝ)
    (pa ms : Bool) (t ea : ℝ) :
    compute_base_force s rs m nk rn sd cb vb ab db pa ms t ea
      = (if t ≠ 0 then 1 + 0.5 * (t / 100) else 1)
          * compute_base_force s rs m false rn sd cb vb ab db pa ms 0 ea
        + (if nk then (4000 : ℝ) else 0) := by
  rw [compute_base_force_closed_form, compute_base_force_closed_form]
  have h0 : ((0 : ℝ) ≠ 0) = False := by simp
  simp only [h0, Bool.false_eq_true, if_false, ite_false, add_zero]
  ring
